import Mathlib

/-!
Shallow embedding of `ktest.hpp` (Kneelawk's single-header C++ testing
framework) and verification of its specification.

The embedding follows the source file section by section:
* assertion results and the abort-signal protocol (`KAssertionResult`,
  `KAssertionError`, `kassertStep`, `runBody`, the `ktest_assert_*`
  evaluators, messages reproduced byte for byte including ANSI-free text);
* the self-registering test catalog (`TestCase`, `registerTest`);
* the runner (`runLoop`, `runAllTests`) including its POSIX isolation
  mode, modelled with explicit wait-status arithmetic (`wIFEXITED`,
  `wEXITSTATUS`, `wIFSIGNALED`, `wTERMSIG`, `wSTOPSIG`) mirroring the
  glibc macros, and the `KTEST_FORK` / `KTEST_EXIT` environment flags.

Side effects are made explicit: console output becomes lists of lines,
process termination becomes a `RunEnd` value, and the environment (fork
failures, crash signals) becomes input data on each `TestCase`.
-/

namespace KTest

/-- Mirror of `ktest::KAssertionResult`: a message and a success flag.
The C++ default constructor yields an empty message and `success = true`. -/
structure KAssertionResult where
  msg : String := ""
  success : Bool := true
deriving Repr, DecidableEq

/-- Mirror of `ktest::KAssertionError`, the payload-free abort signal
thrown by `KAssertionHelper::operator=` on a failed assertion. -/
structure KAssertionError where
deriving Repr, DecidableEq

/-- Mirror of the `KTEST_KASSERT_BASE` macro (ktest.hpp lines 89-91): a
successful `KAssertionResult` makes the statement a no-op; a failed one
reaches `KAssertionHelper::operator=`, which throws `KAssertionError`. -/
def kassertStep (res : KAssertionResult) : Option KAssertionError :=
  if res.success then none else some ⟨⟩

/-- Execution of a test body modelled as a sequence of assertion
statements run left to right through `kassertStep`.  Returns the number
of assertion statements that actually executed and the abort signal, if
one was thrown (which, as in C++, ends the body at that point). -/
def runBody : List KAssertionResult → Nat × Option KAssertionError
  | [] => (0, none)
  | r :: rest =>
    match kassertStep r with
    | none =>
      let p := runBody rest
      (p.1 + 1, p.2)
    | some e => (1, some e)

/-- C++ `operator<<` prints a `bool` as `1` or `0` (no `boolalpha`). -/
def cppBool (b : Bool) : String := cond b "1" "0"

/-- Mirror of `ktest::ktest_assert_true` (lines 98-101). -/
def ktest_assert_true (checkStr : String) (check : Bool) : KAssertionResult :=
  ⟨"ASSERT_TRUE - Expected the following to be true:\n  '" ++ checkStr ++ "': "
      ++ cppBool check,
    check⟩

/-- Mirror of `ktest::ktest_assert_false` (lines 106-109): note the
success flag is `!check` while the printed value is `check` itself. -/
def ktest_assert_false (checkStr : String) (check : Bool) : KAssertionResult :=
  ⟨"ASSERT_FALSE - Expected the following to be false:\n  '" ++ checkStr ++ "': "
      ++ cppBool check,
    !check⟩

/-- Mirror of the `ktest::ktest_assert_eq` template (lines 114-117),
instantiated at a type with decidable equality and a stream form. -/
def ktest_assert_eq {α : Type} [ToString α] [DecidableEq α]
    (expectedStr actualStr : String) (expected actual : α) : KAssertionResult :=
  ⟨"ASSERT_EQ - Expected the following to be equal:\n  '" ++ expectedStr ++ "': "
      ++ toString expected ++ "\n  '" ++ actualStr ++ "': " ++ toString actual,
    decide (expected = actual)⟩

/-- Mirror of `ktest::ktest_assert_ne` (lines 122-125). -/
def ktest_assert_ne {α : Type} [ToString α] [DecidableEq α]
    (expectedStr actualStr : String) (expected actual : α) : KAssertionResult :=
  ⟨"ASSERT_NE - Expected the following to be not equal:\n  '" ++ expectedStr ++ "': "
      ++ toString expected ++ "\n  '" ++ actualStr ++ "': " ++ toString actual,
    decide (expected ≠ actual)⟩

/-- Mirror of `ktest::ktest_assert_gt` (lines 130-133). -/
def ktest_assert_gt {α : Type} [ToString α] [LinearOrder α]
    (aStr bStr : String) (a b : α) : KAssertionResult :=
  ⟨"ASSERT_GT - Expected the following 'a' to be greater than 'b':\n  a: '"
      ++ aStr ++ "': " ++ toString a ++ "\n  b: '" ++ bStr ++ "': " ++ toString b,
    decide (a > b)⟩

/-- Mirror of `ktest::ktest_assert_ge` (lines 138-141).  The source tags
this message `ASSERT_GT` (not `ASSERT_GE`); the embedding reproduces the
source text exactly. -/
def ktest_assert_ge {α : Type} [ToString α] [LinearOrder α]
    (aStr bStr : String) (a b : α) : KAssertionResult :=
  ⟨"ASSERT_GT - Expected the following 'a' to be greater than or equal to 'b':\n  a: '"
      ++ aStr ++ "': " ++ toString a ++ "\n  b: '" ++ bStr ++ "': " ++ toString b,
    decide (a ≥ b)⟩

/-- Mirror of `ktest::ktest_assert_lt` (lines 146-149).  The source tags
this message `ASSERT_GT` (not `ASSERT_LT`). -/
def ktest_assert_lt {α : Type} [ToString α] [LinearOrder α]
    (aStr bStr : String) (a b : α) : KAssertionResult :=
  ⟨"ASSERT_GT - Expected the following 'a' to be less than 'b':\n  a: '"
      ++ aStr ++ "': " ++ toString a ++ "\n  b: '" ++ bStr ++ "': " ++ toString b,
    decide (a < b)⟩

/-- Mirror of `ktest::ktest_assert_le` (lines 154-157).  The source tags
this message `ASSERT_GT` (not `ASSERT_LE`). -/
def ktest_assert_le {α : Type} [ToString α] [LinearOrder α]
    (aStr bStr : String) (a b : α) : KAssertionResult :=
  ⟨"ASSERT_GT - Expected the following 'a' to be less than or equal to 'b':\n  a: '"
      ++ aStr ++ "': " ++ toString a ++ "\n  b: '" ++ bStr ++ "': " ++ toString b,
    decide (a ≤ b)⟩

/-- Possible behaviours of a test body, abstracting `std::function<void()>`:
complete normally, throw `KAssertionError` (a failed assertion), throw any
other exception, or crash the hosting process with a signal. -/
inductive BodyOutcome where
  | ok : BodyOutcome
  | assertFail : BodyOutcome
  | otherExc : BodyOutcome
  | crash : Nat → BodyOutcome
deriving Repr, DecidableEq

/-- Mirror of `ktest::KTestTest`: a named test body.  `forkFail` is
environment data for isolation mode: `some e` means `fork()` returns `-1`
for this test with `strerror(errno) = e`; `none` means the fork succeeds. -/
structure TestCase where
  name : String
  body : BodyOutcome
  forkFail : Option String := none
deriving Repr, DecidableEq

/-- Mirror of registration via the `KTestTest` constructor (line 198),
which does `getTests().push_back(*this)`: append to the catalog. -/
def registerTest (catalog : List TestCase) (t : TestCase) : List TestCase :=
  catalog ++ [t]

/-- Mirror of glibc `WIFEXITED`: low 7 bits of the wait status are zero. -/
def wIFEXITED (s : Nat) : Bool := s % 128 == 0

/-- Mirror of glibc `WEXITSTATUS`: bits 8-15 of the wait status. -/
def wEXITSTATUS (s : Nat) : Nat := (s / 256) % 256

/-- Mirror of glibc `WIFSIGNALED`: the low 7 bits are a real signal
number (1..126; 0 is normal exit, 127 is a stopped child). -/
def wIFSIGNALED (s : Nat) : Bool := (s % 128 != 0) && (s % 128 != 127)

/-- Mirror of glibc `WTERMSIG`: the low 7 bits of the wait status. -/
def wTERMSIG (s : Nat) : Nat := s % 128

/-- Mirror of glibc `WSTOPSIG`: bits 8-15 of the wait status (meaningful
only for a stopped child; for a signal-terminated child it is `0`). -/
def wSTOPSIG (s : Nat) : Nat := (s / 256) % 256

/-- Model of libc `strsignal` for the signals used here. -/
def strsignal (sig : Nat) : String :=
  match sig with
  | 6 => "Aborted"
  | 9 => "Killed"
  | 11 => "Segmentation fault"
  | n => "Unknown signal " ++ toString n

/-- Wait status the parent observes for a forked child (ktest.hpp lines
262-269): the child runs the body, catching only `KAssertionError`.
Normal completion gives `exit(0)`; a caught assertion error gives
`exit(-1)` (status byte `255`); any other exception escapes `main` in the
child, so the runtime calls `std::terminate`/`abort` and the child dies
by `SIGABRT` (signal 6); a crash terminates the child by its signal. -/
def childStatus : BodyOutcome → Nat
  | .ok => 0
  | .assertFail => 255 * 256
  | .otherExc => 6
  | .crash sig => sig % 128

/-- ANSI bold-cyan wrapping used for test names in console output. -/
def cyan (s : String) : String := "\x1b[1;36m" ++ s ++ "\x1b[0m"

/-- Console line printed before each test (line 258). -/
def startLine (name : String) : String := "Running test: " ++ cyan name

/-- Console line for a passed test (lines 281, 300). -/
def passLine (name : String) : String :=
  "Test " ++ cyan name ++ " \x1b[1;32mpassed\x1b[0m."

/-- Console line for a failed test (lines 285, 303). -/
def failLine (name : String) : String :=
  "Test " ++ cyan name ++ " \x1b[1;31mfailed\x1b[0m."

/-- Console line for a signal-terminated child (lines 291-292); the code
passes `WSTOPSIG(status)` to `strsignal`. -/
def failSigLine (name : String) (sig : Nat) : String :=
  "Test " ++ cyan name ++ " \x1b[1;31mfailed\x1b[0m. Signal: " ++ strsignal sig

/-- Diagnostic printed to `std::cerr` when `fork()` fails (line 272). -/
def forkErrLine (name e : String) : String :=
  "Error starting test " ++ name ++ ": " ++ e

/-- Header of the final summary block (line 311). -/
def resultsHeader : String := "\x1b[1m## TEST RESULTS ##\x1b[0m"

/-- Banner printed when at least one test failed (line 316). -/
def failBanner : String := "\x1b[1;31m## TESTS FAILED ##\x1b[0m"

/-- Environment of the runner: the two variables it reads (line 249 and
line 252), each `some value` or `none` when unset. -/
structure Config where
  ktestFork : Option String := none
  ktestExit : Option String := none
deriving Repr, DecidableEq

/-- An environment variable enables a feature exactly when it is set and
equal to `"1"` (`env != nullptr && !strcmp(env, "1")`). -/
def envIsOne : Option String → Bool
  | some s => s == "1"
  | none => false

/-- Mirror of `shouldFork` (line 250). -/
def shouldFork (cfg : Config) : Bool := envIsOne cfg.ktestFork

/-- Mirror of `shouldExit` (line 253). -/
def shouldExit (cfg : Config) : Bool := envIsOne cfg.ktestExit

/-- Ways the test loop can end prematurely in direct (non-isolated)
execution: an exception other than `KAssertionError` escapes the `try`
and propagates out of `runAllTests`, or the body crashes the process. -/
inductive Abnormal where
  | uncaughtExc : Abnormal
  | killed : Nat → Abnormal
deriving Repr, DecidableEq

/-- State accumulated by the `for` loop of `runAllTests` (lines 255-309):
stdout lines, stderr lines, the names of the tests iterated (one entry
per start marker printed), both counters, and whether the loop was cut
short abnormally. -/
structure LoopResult where
  out : List String
  err : List String
  ran : List String
  passed : Nat
  failed : Nat
  abnormal : Option Abnormal
deriving Repr, DecidableEq

/-- The `for` loop of `runAllTests` over the catalog.  In isolation mode
(`fork = true`): a failed `fork()` prints a diagnostic to stderr and moves
on without touching either counter (lines 271-272); otherwise the parent
waits and classifies the child wait status (lines 278-294).  In direct
mode the body runs under a handler catching only `KAssertionError`
(lines 298-305); any other exception or a crash ends the run. -/
def runLoop (fork : Bool) : List TestCase → LoopResult
  | [] => ⟨[], [], [], 0, 0, none⟩
  | t :: rest =>
    if fork then
      match t.forkFail with
      | some e =>
        let r := runLoop fork rest
        ⟨startLine t.name :: r.out, forkErrLine t.name e :: r.err,
          t.name :: r.ran, r.passed, r.failed, r.abnormal⟩
      | none =>
        let s := childStatus t.body
        if wIFEXITED s then
          if wEXITSTATUS s == 0 then
            let r := runLoop fork rest
            ⟨startLine t.name :: passLine t.name :: r.out, r.err,
              t.name :: r.ran, r.passed + 1, r.failed, r.abnormal⟩
          else
            let r := runLoop fork rest
            ⟨startLine t.name :: failLine t.name :: r.out, r.err,
              t.name :: r.ran, r.passed, r.failed + 1, r.abnormal⟩
        else if wIFSIGNALED s then
          let r := runLoop fork rest
          ⟨startLine t.name :: failSigLine t.name (wSTOPSIG s) :: r.out, r.err,
            t.name :: r.ran, r.passed, r.failed + 1, r.abnormal⟩
        else
          let r := runLoop fork rest
          ⟨startLine t.name :: r.out, r.err,
            t.name :: r.ran, r.passed, r.failed, r.abnormal⟩
    else
      match t.body with
      | .ok =>
        let r := runLoop fork rest
        ⟨startLine t.name :: passLine t.name :: r.out, r.err,
          t.name :: r.ran, r.passed + 1, r.failed, r.abnormal⟩
      | .assertFail =>
        let r := runLoop fork rest
        ⟨startLine t.name :: failLine t.name :: r.out, r.err,
          t.name :: r.ran, r.passed, r.failed + 1, r.abnormal⟩
      | .otherExc =>
        ⟨[startLine t.name], [], [t.name], 0, 0, some .uncaughtExc⟩
      | .crash sig =>
        ⟨[startLine t.name], [], [t.name], 0, 0, some (.killed sig)⟩

/-- How one call of `runAllTests` ends.  `returned` is the normal return
of the `void` function: it carries no data back to the entry point.
`exited c` is `exit(c)` under the exit policy; the other two record an
escaped exception or an in-process crash. -/
inductive RunEnd where
  | returned : RunEnd
  | exited : Int → RunEnd
  | uncaughtExc : RunEnd
  | killed : Nat → RunEnd
deriving Repr, DecidableEq

/-- Everything observable about one call of `runAllTests`: the console
streams, the iterated test names, the final values of the two internal
counters (local variables of the function; the function itself returns
`void`), and how the call ended. -/
structure RunnerResult where
  out : List String
  err : List String
  ran : List String
  passed : Nat
  failed : Nat
  term : RunEnd
deriving Repr, DecidableEq

/-- Mirror of `ktest::runAllTests` (lines 247-325): read the two flags,
run the loop, print the summary block, the failure banner when any test
failed, and `exit(-1)` when `KTEST_EXIT` is `"1"` and there are failures;
otherwise print the final blank line and return (no value). -/
def runAllTests (cfg : Config) (tests : List TestCase) : RunnerResult :=
  let r := runLoop (shouldFork cfg) tests
  match r.abnormal with
  | some .uncaughtExc => ⟨r.out, r.err, r.ran, r.passed, r.failed, .uncaughtExc⟩
  | some (.killed sig) => ⟨r.out, r.err, r.ran, r.passed, r.failed, .killed sig⟩
  | none =>
    let summary := [resultsHeader,
      "  Tests passed: " ++ toString r.passed,
      "  Tests failed: " ++ toString r.failed]
    let banner := if r.failed ≠ 0 then [failBanner] else []
    if shouldExit cfg = true ∧ r.failed ≠ 0 then
      ⟨r.out ++ summary ++ banner ++ ["Exiting..."], r.err, r.ran,
        r.passed, r.failed, .exited (-1)⟩
    else
      ⟨r.out ++ summary ++ banner ++ [""], r.err, r.ran,
        r.passed, r.failed, .returned⟩

/-- The Run Report of the specification, following its words: the record
`\x7b passedCount, failedCount \x7d` that §4.3 says `runAll()` returns to the
entry point.  Kept separate from the embedding of the code so the two can
be compared. -/
structure RunReport where
  passedCount : Nat
  failedCount : Nat
deriving Repr, DecidableEq

/-- Concrete catalog entries and configurations used in witnesses and
counterexamples. -/
def tOkCase : TestCase := ⟨"after", .ok, none⟩

/-- A test whose body throws `KAssertionError`. -/
def tFailCase : TestCase := ⟨"t2", .assertFail, none⟩

/-- A test whose body throws an exception other than `KAssertionError`. -/
def tOtherCase : TestCase := ⟨"boom", .otherExc, none⟩

/-- A test whose body dereferences bad memory: the process (the child, in
isolation mode) dies by SIGSEGV, wait status `11`. -/
def tCrashCase : TestCase := ⟨"crash", .crash 11, none⟩

/-- A test for which `fork()` itself fails. -/
def tForkFailCase : TestCase := ⟨"ff", .ok, some "Resource temporarily unavailable"⟩

/-- Both environment flags unset. -/
def cfgNone : Config := ⟨none, none⟩

/-- Isolation mode on, exit policy off. -/
def cfgFork : Config := ⟨some "1", none⟩

/-- Isolation mode off, exit policy on. -/
def cfgExit : Config := ⟨none, some "1"⟩

/-!  Helper lemmas shared by the claim theorems. -/

/-- The runner's counters, stderr stream and iterated-test list are
exactly those accumulated by the loop: the epilogue of `runAllTests`
only appends the summary to stdout and decides how the call ends. -/
theorem runAllTests_proj (cfg : Config) (ts : List TestCase) :
    (runAllTests cfg ts).passed = (runLoop (shouldFork cfg) ts).passed ∧
    (runAllTests cfg ts).failed = (runLoop (shouldFork cfg) ts).failed ∧
    (runAllTests cfg ts).err = (runLoop (shouldFork cfg) ts).err ∧
    (runAllTests cfg ts).ran = (runLoop (shouldFork cfg) ts).ran := by
  unfold runAllTests
  rcases habn : (runLoop (shouldFork cfg) ts).abnormal with _ | a
  · simp only [habn]
    split <;> simp
  · cases a <;> simp [habn]

/-- When the loop ends normally, `runAllTests` is its epilogue applied to
the loop state. -/
theorem runAllTests_none_eq (cfg : Config) (ts : List TestCase)
    (h : (runLoop (shouldFork cfg) ts).abnormal = none) :
    runAllTests cfg ts =
      (let r := runLoop (shouldFork cfg) ts
       let summary := [resultsHeader,
         "  Tests passed: " ++ toString r.passed,
         "  Tests failed: " ++ toString r.failed]
       let banner := if r.failed ≠ 0 then [failBanner] else []
       if shouldExit cfg = true ∧ r.failed ≠ 0 then
         ⟨r.out ++ summary ++ banner ++ ["Exiting..."], r.err, r.ran,
           r.passed, r.failed, .exited (-1)⟩
       else
         ⟨r.out ++ summary ++ banner ++ [""], r.err, r.ran,
           r.passed, r.failed, .returned⟩) := by
  unfold runAllTests
  simp only [h]

/-- In isolation mode the loop never ends abnormally: every child
outcome is classified by wait status in the parent. -/
theorem runLoop_fork_abnormal (ts : List TestCase) :
    (runLoop true ts).abnormal = none := by
  induction ts with
  | nil => rfl
  | cons t rest ih =>
    simp only [runLoop, if_true]
    rcases t.forkFail with _ | e
    · dsimp only
      split
      · split <;> exact ih
      · split <;> exact ih
    · exact ih

/-- The loop iterates the catalog in declaration order, one start marker
per test, whenever it is in isolation mode or no body ends the run
abnormally. -/
theorem runLoop_ran_of_tame (fork : Bool) (ts : List TestCase)
    (h : fork = true ∨ ∀ t ∈ ts, t.body = .ok ∨ t.body = .assertFail) :
    (runLoop fork ts).ran = ts.map TestCase.name := by
  induction ts with
  | nil => rfl
  | cons t rest ih =>
    rcases h with h | h
    · subst h
      simp only [runLoop, if_true]
      rcases t.forkFail with _ | e
      · dsimp only
        split
        · split <;> simp [ih (Or.inl rfl)]
        · split <;> simp [ih (Or.inl rfl)]
      · simp [ih (Or.inl rfl)]
    · have ht := h t (by simp)
      have hrest := fun x hx => h x (List.mem_cons_of_mem t hx)
      cases hfork : fork with
      | false =>
        subst hfork
        rcases ht with ht | ht <;>
          simp [runLoop, ht, ih (Or.inr hrest)]
      | true =>
        subst hfork
        simp only [runLoop, if_true]
        rcases t.forkFail with _ | e
        · dsimp only
          split
          · split <;> simp [ih (Or.inl rfl)]
          · split <;> simp [ih (Or.inl rfl)]
        · simp [ih (Or.inl rfl)]

/-- C1: inside a test body, a passing assertion raises no abort signal
and execution proceeds to the next statement (the statement count grows
by one and the rest of the body behaves as before); a failing assertion
raises exactly one `KAssertionError` and no statement after it executes:
after a prefix of passing assertions, a failing assertion makes the body
execute exactly `pre.length + 1` statements with the single abort signal,
regardless of what follows it. -/
theorem c1_assertion_abort :
    (∀ (r : KAssertionResult) (rest : List KAssertionResult),
      r.success = true →
      runBody (r :: rest) = ((runBody rest).1 + 1, (runBody rest).2)) ∧
    (∀ (pre : List KAssertionResult) (r : KAssertionResult)
        (post : List KAssertionResult),
      (∀ x ∈ pre, x.success = true) → r.success = false →
      runBody (pre ++ r :: post) = (pre.length + 1, some ⟨⟩)) := by
  constructor
  · intro r rest hr
    simp [runBody, kassertStep, hr]
  · intro pre
    induction pre with
    | nil =>
      intro r post _ hr
      simp [runBody, kassertStep, hr]
    | cons x xs ih =>
      intro r post hall hr
      have hx : x.success = true := hall x (by simp)
      have hxs := ih r post (fun y hy => hall y (by simp [hy])) hr
      simp [runBody, kassertStep, hx, hxs]

/-- Witness for C1 at a concrete body: a passing assertion followed by a
failing one and a trailing statement; two statements execute, one abort
signal is raised, the trailing statement never runs. -/
theorem c1_assertion_abort_witness :
    runBody [⟨"", true⟩, ⟨"m", false⟩, ⟨"n", true⟩] = (2, some ⟨⟩) := by
  have h := c1_assertion_abort.2 [⟨"", true⟩] ⟨"m", false⟩ [⟨"n", true⟩]
    (by intro x hx; rw [List.mem_singleton] at hx; rw [hx]) rfl
  simpa using h

/-- C4 is wrong on the code: the GE, LT and LE evaluators all tag their
message `ASSERT_GT` (ktest.hpp lines 140, 148, 156 reuse the GT tag even
though the human-readable description in the same message names the
right relation), while TRUE, FALSE, EQ, NE and GT carry their own tags.
This theorem evaluates the evaluators at the failing inputs. -/
theorem c4_kind_tag_bug :
    (ktest_assert_ge "a" "b" (1 : Int) 2).msg.take 9 = "ASSERT_GT" ∧
    (ktest_assert_ge "a" "b" (1 : Int) 2).msg.take 9 ≠ "ASSERT_GE" ∧
    (ktest_assert_lt "a" "b" (1 : Int) 2).msg.take 9 = "ASSERT_GT" ∧
    (ktest_assert_lt "a" "b" (1 : Int) 2).msg.take 9 ≠ "ASSERT_LT" ∧
    (ktest_assert_le "a" "b" (1 : Int) 2).msg.take 9 = "ASSERT_GT" ∧
    (ktest_assert_le "a" "b" (1 : Int) 2).msg.take 9 ≠ "ASSERT_LE" ∧
    (ktest_assert_true "x" true).msg.take 11 = "ASSERT_TRUE" ∧
    (ktest_assert_false "x" true).msg.take 12 = "ASSERT_FALSE" ∧
    (ktest_assert_eq "x" "y" (1 : Int) 1).msg.take 9 = "ASSERT_EQ" ∧
    (ktest_assert_ne "x" "y" (1 : Int) 1).msg.take 9 = "ASSERT_NE" ∧
    (ktest_assert_gt "x" "y" (1 : Int) 1).msg.take 9 = "ASSERT_GT" := by
  set_option maxRecDepth 8192 in decide

/-- C8: each evaluator's success flag is exactly its specified predicate:
TRUE iff the value is true, FALSE iff it is false, EQ iff the operands
are equal, NE iff they differ, and GT/GE/LT/LE iff the corresponding
order comparison holds. -/
theorem c8_predicate_flags {α : Type} [LinearOrder α] [ToString α]
    (s1 s2 : String) (c : Bool) (x y : α) :
    ((ktest_assert_true s1 c).success = true ↔ c = true) ∧
    ((ktest_assert_false s1 c).success = true ↔ c = false) ∧
    ((ktest_assert_eq s1 s2 x y).success = true ↔ x = y) ∧
    ((ktest_assert_ne s1 s2 x y).success = true ↔ x ≠ y) ∧
    ((ktest_assert_gt s1 s2 x y).success = true ↔ x > y) ∧
    ((ktest_assert_ge s1 s2 x y).success = true ↔ x ≥ y) ∧
    ((ktest_assert_lt s1 s2 x y).success = true ↔ x < y) ∧
    ((ktest_assert_le s1 s2 x y).success = true ↔ x ≤ y) := by
  refine ⟨Iff.rfl, ?_, ?_, ?_, ?_, ?_, ?_, ?_⟩ <;>
    simp [ktest_assert_false, ktest_assert_eq, ktest_assert_ne,
      ktest_assert_gt, ktest_assert_ge, ktest_assert_lt, ktest_assert_le]

/-- C10: on an empty catalog, `runAllTests` completes normally for every
setting of the two environment flags, with both counters zero, a summary
reporting 0/0, no failure banner, no stderr output, and a normal
(valueless) return — the exit policy never fires. -/
theorem c10_empty_catalog (cfg : Config) :
    runAllTests cfg [] =
      ⟨[resultsHeader, "  Tests passed: 0", "  Tests failed: 0", ""],
        [], [], 0, 0, .returned⟩ ∧
    failBanner ∉ (runAllTests cfg []).out := by
  have h : runAllTests cfg [] =
      ⟨[resultsHeader, "  Tests passed: 0", "  Tests failed: 0", ""],
        [], [], 0, 0, .returned⟩ := by
    have h0 : (runLoop (shouldFork cfg) []).abnormal = none := rfl
    rw [runAllTests_none_eq cfg [] h0]
    simp only [runLoop]
    norm_num
    exact ⟨rfl, rfl⟩
  exact ⟨h, by rw [h]; decide⟩

/-- C6: in non-isolated execution the per-test handler catches only
`KAssertionError`: a body that completes adds one passed test, a body
that throws `KAssertionError` adds one failed test (in both cases the
run continues with the remaining catalog), and a body that throws any
other exception is not caught at the test boundary — it propagates out
of `runAllTests`, which ends with only that test's start marker printed,
no summary, no counts, and the remaining tests never run. -/
theorem c6_direct_mode (cfg : Config) (h : shouldFork cfg = false) :
    (∀ (t : TestCase) (rest : List TestCase), t.body = .ok →
      (runAllTests cfg (t :: rest)).passed = (runAllTests cfg rest).passed + 1 ∧
      (runAllTests cfg (t :: rest)).failed = (runAllTests cfg rest).failed) ∧
    (∀ (t : TestCase) (rest : List TestCase), t.body = .assertFail →
      (runAllTests cfg (t :: rest)).failed = (runAllTests cfg rest).failed + 1 ∧
      (runAllTests cfg (t :: rest)).passed = (runAllTests cfg rest).passed) ∧
    (∀ (t : TestCase) (rest : List TestCase), t.body = .otherExc →
      runAllTests cfg (t :: rest) =
        ⟨[startLine t.name], [], [t.name], 0, 0, .uncaughtExc⟩) := by
  refine ⟨?_, ?_, ?_⟩
  · intro t rest hb
    have h1 := (runAllTests_proj cfg (t :: rest)).1
    have h2 := (runAllTests_proj cfg (t :: rest)).2.1
    have h3 := (runAllTests_proj cfg rest).1
    have h4 := (runAllTests_proj cfg rest).2.1
    rw [h1, h2, h3, h4, h]
    simp [runLoop, hb]
  · intro t rest hb
    have h1 := (runAllTests_proj cfg (t :: rest)).1
    have h2 := (runAllTests_proj cfg (t :: rest)).2.1
    have h3 := (runAllTests_proj cfg rest).1
    have h4 := (runAllTests_proj cfg rest).2.1
    rw [h1, h2, h3, h4, h]
    simp [runLoop, hb]
  · intro t rest hb
    have hloop : runLoop (shouldFork cfg) (t :: rest) =
        ⟨[startLine t.name], [], [t.name], 0, 0, some .uncaughtExc⟩ := by
      rw [h]
      simp [runLoop, hb]
    unfold runAllTests
    rw [hloop]

/-- Witness for C6: with both flags unset (direct mode), a single test
whose body throws a non-assertion exception ends the whole run with only
the start marker printed and no summary. -/
theorem c6_direct_mode_witness :
    runAllTests cfgNone [tOtherCase] =
      ⟨[startLine "boom"], [], ["boom"], 0, 0, .uncaughtExc⟩ := by
  exact (c6_direct_mode cfgNone rfl).2.2 tOtherCase [] rfl

/-- C7: whenever the run completes its loop (no escaped exception or
crash), the process terminates via `exit(-1)` — a nonzero status —
exactly when `KTEST_EXIT` is set to `"1"` and `failedCount` is nonzero;
in every other case (flag absent, flag not `"1"`, or no failures) the
runner returns normally even when `failedCount > 0`. -/
theorem c7_exit_policy (cfg : Config) (tests : List TestCase)
    (h : (runLoop (shouldFork cfg) tests).abnormal = none) :
    ((runAllTests cfg tests).term = .exited (-1) ↔
      (cfg.ktestExit = some "1" ∧ (runAllTests cfg tests).failed ≠ 0)) ∧
    ((runAllTests cfg tests).term ≠ .exited (-1) →
      (runAllTests cfg tests).term = .returned) ∧
    ((-1 : Int) ≠ 0) := by
  have hse : shouldExit cfg = true ↔ cfg.ktestExit = some "1" := by
    cases hc : cfg.ktestExit with
    | none => simp [shouldExit, envIsOne, hc]
    | some s => simp [shouldExit, envIsOne, hc]
  have hfail := (runAllTests_proj cfg tests).2.1
  have hterm : (runAllTests cfg tests).term =
      (if shouldExit cfg = true ∧ (runLoop (shouldFork cfg) tests).failed ≠ 0
        then RunEnd.exited (-1) else RunEnd.returned) := by
    rw [runAllTests_none_eq cfg tests h]
    by_cases hc : shouldExit cfg = true ∧
        (runLoop (shouldFork cfg) tests).failed ≠ 0
    · rw [if_pos hc, if_pos hc]
    · rw [if_neg hc, if_neg hc]
  refine ⟨?_, ?_, by norm_num⟩
  · rw [hterm, hfail]
    by_cases hc : shouldExit cfg = true ∧
        (runLoop (shouldFork cfg) tests).failed ≠ 0
    · rw [if_pos hc]
      exact ⟨fun _ => ⟨hse.mp hc.1, hc.2⟩, fun _ => rfl⟩
    · rw [if_neg hc]
      constructor
      · intro hcontra
        simp at hcontra
      · intro hk
        exact absurd ⟨hse.mpr hk.1, hk.2⟩ hc
  · rw [hterm]
    by_cases hc : shouldExit cfg = true ∧
        (runLoop (shouldFork cfg) tests).failed ≠ 0
    · rw [if_pos hc]
      intro hne
      exact absurd rfl hne
    · rw [if_neg hc]
      intro _
      rfl

/-- Witness for C7: with `KTEST_EXIT=1` and one failing test the process
terminates with the nonzero status `-1`. -/
theorem c7_exit_policy_witness :
    (runAllTests cfgExit [tFailCase]).term = .exited (-1) := by
  exact (c7_exit_policy cfgExit [tFailCase] rfl).1.mpr ⟨rfl, by decide⟩

/-- C5 is wrong on the code: `runAllTests` is `void` (ktest.hpp line
247); it prints the counts but hands no Run Report back to the entry
point.  Two runs that both return normally but end with different counts
(`0` and `1` failed tests) show that no function of the (valueless)
return can reconstruct the Run Report the claim says is returned. -/
theorem c5_counterexample :
    (runAllTests cfgNone []).term = .returned ∧
    (runAllTests cfgNone [tFailCase]).term = .returned ∧
    (runAllTests cfgNone []).failed = 0 ∧
    (runAllTests cfgNone [tFailCase]).failed = 1 ∧
    ¬ ∃ f : Unit → RunReport,
        f () = ⟨(runAllTests cfgNone []).passed,
                (runAllTests cfgNone []).failed⟩ ∧
        f () = ⟨(runAllTests cfgNone [tFailCase]).passed,
                (runAllTests cfgNone [tFailCase]).failed⟩ := by
  refine ⟨by decide, by decide, by decide, by decide, ?_⟩
  rintro ⟨f, h1, h2⟩
  rw [h1] at h2
  exact absurd (congrArg RunReport.failedCount h2) (by decide)

/-- C5 amended: `runAllTests` returns no value; the Run Report exists
only as console output.  Whenever the loop completes, the summary block
contains both exact count lines, and the call ends either by a normal
valueless return or by `exit(-1)` under the exit policy. -/
theorem c5_report_only_printed (cfg : Config) (tests : List TestCase)
    (h : (runLoop (shouldFork cfg) tests).abnormal = none) :
    ("  Tests passed: " ++ toString (runAllTests cfg tests).passed)
      ∈ (runAllTests cfg tests).out ∧
    ("  Tests failed: " ++ toString (runAllTests cfg tests).failed)
      ∈ (runAllTests cfg tests).out ∧
    ((runAllTests cfg tests).term = .returned ∨
      (runAllTests cfg tests).term = .exited (-1)) := by
  rw [runAllTests_none_eq cfg tests h]
  by_cases hc : shouldExit cfg = true ∧
      (runLoop (shouldFork cfg) tests).failed ≠ 0
  · rw [if_pos hc]
    exact ⟨by simp, by simp, Or.inr rfl⟩
  · rw [if_neg hc]
    exact ⟨by simp, by simp, Or.inl rfl⟩

/-- Witness for the amended C5: a run with one failing test prints the
exact count lines in its output. -/
theorem c5_report_only_printed_witness :
    ("  Tests failed: " ++ toString (runAllTests cfgNone [tFailCase]).failed)
      ∈ (runAllTests cfgNone [tFailCase]).out := by
  exact (c5_report_only_printed cfgNone [tFailCase] rfl).2.1

/-- C2 is wrong on the code: when `fork()` fails, the runner prints the
diagnostic to stderr and moves on, but it never increments
`failedTests` (ktest.hpp lines 271-272 have no `++failedTests`).  One
fork-failed test in isolation mode yields the diagnostic, a failed count
of `0`, and — shown on a two-test catalog — the run continuing to the
next test. -/
theorem c2_counterexample :
    (runAllTests cfgFork [tForkFailCase]).err =
      [forkErrLine "ff" "Resource temporarily unavailable"] ∧
    (runAllTests cfgFork [tForkFailCase]).failed = 0 ∧
    (runAllTests cfgFork [tForkFailCase]).passed = 0 ∧
    (runAllTests cfgFork [tForkFailCase, tOkCase]).ran = ["ff", "after"] := by
  exact ⟨by decide, by decide, by decide, by decide⟩

/-- C2 amended: in isolation mode, a test whose fork fails produces
exactly one stderr diagnostic and the run continues with the remaining
catalog unchanged, but the test is counted neither failed nor passed:
both counters equal those of the run without it. -/
theorem c2_fork_failure (cfg : Config) (t : TestCase)
    (rest : List TestCase) (e : String)
    (hf : shouldFork cfg = true) (he : t.forkFail = some e) :
    (runAllTests cfg (t :: rest)).err =
      forkErrLine t.name e :: (runAllTests cfg rest).err ∧
    (runAllTests cfg (t :: rest)).passed = (runAllTests cfg rest).passed ∧
    (runAllTests cfg (t :: rest)).failed = (runAllTests cfg rest).failed ∧
    (runAllTests cfg (t :: rest)).ran = t.name :: (runAllTests cfg rest).ran := by
  have hloop : runLoop true (t :: rest) =
      ⟨startLine t.name :: (runLoop true rest).out,
        forkErrLine t.name e :: (runLoop true rest).err,
        t.name :: (runLoop true rest).ran,
        (runLoop true rest).passed, (runLoop true rest).failed,
        (runLoop true rest).abnormal⟩ := by
    simp [runLoop, he]
  have p1 := runAllTests_proj cfg (t :: rest)
  have p2 := runAllTests_proj cfg rest
  rw [hf] at p1 p2
  refine ⟨?_, ?_, ?_, ?_⟩
  · rw [p1.2.2.1, p2.2.2.1, hloop]
  · rw [p1.1, p2.1, hloop]
  · rw [p1.2.1, p2.2.1, hloop]
  · rw [p1.2.2.2, p2.2.2.2, hloop]

/-- Witness for the amended C2: concretely, prepending a fork-failed
test to a one-test catalog adds its diagnostic, leaves both counters as
in the run without it, and still iterates the other test. -/
theorem c2_fork_failure_witness :
    (runAllTests cfgFork [tForkFailCase, tOkCase]).err =
      forkErrLine "ff" "Resource temporarily unavailable"
        :: (runAllTests cfgFork [tOkCase]).err ∧
    (runAllTests cfgFork [tForkFailCase, tOkCase]).passed =
      (runAllTests cfgFork [tOkCase]).passed ∧
    (runAllTests cfgFork [tForkFailCase, tOkCase]).failed =
      (runAllTests cfgFork [tOkCase]).failed ∧
    (runAllTests cfgFork [tForkFailCase, tOkCase]).ran =
      "ff" :: (runAllTests cfgFork [tOkCase]).ran := by
  exact c2_fork_failure cfgFork tForkFailCase [tOkCase]
    "Resource temporarily unavailable" rfl rfl

/-- C3: the pass/fail classification by exit status is as claimed (exit
0 counts passed, nonzero counts failed), but the signal-name part is
wrong on the code: the `WIFSIGNALED` branch reads `WSTOPSIG(status)`
(ktest.hpp line 290) instead of `WTERMSIG(status)`.  For a child killed
by signal 11 (SIGSEGV, wait status `11`) the terminating signal is `11`
(`Segmentation fault`), but `WSTOPSIG` yields `0`, so the report prints
`strsignal(0)` (`Unknown signal 0`) and the true signal name appears
nowhere in the output. -/
theorem c3_signal_name_bug :
    (runAllTests cfgFork [tOkCase]).passed = 1 ∧
    (runAllTests cfgFork [tFailCase]).failed = 1 ∧
    childStatus tCrashCase.body = 11 ∧
    wIFSIGNALED 11 = true ∧
    wTERMSIG 11 = 11 ∧
    wSTOPSIG 11 = 0 ∧
    (runAllTests cfgFork [tCrashCase]).failed = 1 ∧
    failSigLine "crash" 0 ∈ (runAllTests cfgFork [tCrashCase]).out ∧
    failSigLine "crash" 11 ∉ (runAllTests cfgFork [tCrashCase]).out ∧
    strsignal 0 = "Unknown signal 0" ∧
    strsignal 11 = "Segmentation fault" := by
  exact ⟨by decide, by decide, rfl, rfl, rfl, rfl, by decide, by decide,
    by decide, rfl, rfl⟩

/-- C9 is wrong on the code in non-isolated mode: a body that throws a
non-assertion exception ends the run, so later catalog entries are
skipped.  With flags unset, a two-test catalog whose first body throws
such an exception iterates only the first test. -/
theorem c9_counterexample :
    (runAllTests cfgNone [tOtherCase, tOkCase]).ran = ["boom"] ∧
    ([tOtherCase, tOkCase] : List TestCase).length = 2 ∧
    (runAllTests cfgNone [tOtherCase, tOkCase]).ran.length ≠ 2 ∧
    (runAllTests cfgNone [tOtherCase, tOkCase]).ran ≠
      List.map TestCase.name [tOtherCase, tOkCase] := by
  exact ⟨by decide, rfl, by decide, by decide⟩

/-- C9 amended: in isolation mode unconditionally, and in direct mode
provided every body either completes or fails only with the abort
signal, the runner iterates exactly the catalog, in declaration (append)
order, each test once: the iterated names are the catalog's names in
order and their number is the catalog size; registration appends, so
declaring A, B, C in that order yields the catalog [A, B, C]. -/
theorem c9_run_order (cfg : Config) (tests : List TestCase)
    (h : shouldFork cfg = true ∨
      ∀ t ∈ tests, t.body = .ok ∨ t.body = .assertFail) :
    (runAllTests cfg tests).ran = tests.map TestCase.name ∧
    (runAllTests cfg tests).ran.length = tests.length ∧
    ∀ a b c : TestCase,
      registerTest (registerTest (registerTest [] a) b) c = [a, b, c] := by
  have hran : (runAllTests cfg tests).ran = tests.map TestCase.name := by
    rw [(runAllTests_proj cfg tests).2.2.2]
    exact runLoop_ran_of_tame (shouldFork cfg) tests h
  refine ⟨hran, ?_, fun a b c => rfl⟩
  rw [hran]
  exact List.length_map tests TestCase.name

/-- Witness for the amended C9: in isolation mode a crashing test does
not stop the iteration — a two-test catalog is iterated in declaration
order; and in direct mode a passing-then-failing catalog likewise. -/
theorem c9_run_order_witness :
    (runAllTests cfgFork [tCrashCase, tOkCase]).ran = ["crash", "after"] ∧
    (runAllTests cfgNone [tOkCase, tFailCase]).ran = ["after", "t2"] := by
  constructor
  · exact (c9_run_order cfgFork [tCrashCase, tOkCase] (Or.inl rfl)).1
  · exact (c9_run_order cfgNone [tOkCase, tFailCase] (Or.inr (by decide))).1

end KTest
